import Mathlib

/-!
touch-block: display-state observers and the input-blocking overlay.

A shallow embedding of the Go sources `dpms.go`, `xrandr.go`, `block-overlay.go`
and the event loop of `main.go`.

Modelling conventions.

* The X server is an oracle: every function takes, as explicit arguments, the
  answers the server gives to the requests the function may issue.  A checked
  request answers `Option GoError` (`none` is Go's `nil` error); a request with
  a reply answers `Except GoError reply`.
* Side effects (X requests, `time.Sleep`, log lines) are returned as a trace, in
  program order.
* The mutex of `BlockOverlay` and the hand-off channel between the observer
  goroutine and the consumer are not modelled: every function is run
  sequentially, and the stream of an observer is the list of values it sends.
-/

namespace TouchBlock

/-! ## Go values -/

/-- Go `error` values, by the constructor that made them. -/
inductive GoError where
  /-- An error handed back by the X connection, identified by a code. -/
  | x (code : Nat)
  /-- The value of `errors.New(msg)`. -/
  | new (msg : String)
  /-- The value of `fmt.Errorf(format, args...)`. -/
  | errorf (format : String) (args : List GoError)
  /-- The value of `errors.Join(errs...)`. -/
  | join (errs : List GoError)

/-- An argument of a log call. -/
inductive LogArg where
  | err (e : GoError)
  | num (n : Int)

/-- One line written through package `log`: the format (or first operand) and
the remaining operands. -/
structure LogLine where
  format : String
  args : List LogArg

/-- The 64-bit two's complement value of an integer, Go's `int64` wrap-around. -/
def wrapInt64 (z : Int) : Int := (z + 2 ^ 63) % 2 ^ 64 - 2 ^ 63

/-- The constant `time.Millisecond`, in nanoseconds. -/
def Millisecond : Int := 1000000

/-- The Go expression `time.Duration(ms) * time.Millisecond` for a `uint64`
value `ms`: a conversion to `int64` followed by an `int64` multiplication. -/
def durationOfMs (ms : Nat) : Int := wrapInt64 (wrapInt64 (ms : Int) * Millisecond)

/-- The time `time.Sleep(d)` waits, in nanoseconds: a negative or zero duration
makes `Sleep` return immediately. -/
def sleepWait (d : Int) : Nat := d.toNat

/-! ## dpms.go -/

/-- Modelled from the spec: `dpms.DPMSModeOn` is a constant of the imported xgb
package, which is not under src/; the spec calls the level `on`.  The value is
the one of the DPMS protocol. -/
def DPMSModeOn : Nat := 0

/-- Modelled from the spec: `dpms.DPMSModeStandby` of the imported xgb package
(the spec's level `standby`), with the value of the DPMS protocol. -/
def DPMSModeStandby : Nat := 1

/-- Modelled from the spec: `dpms.DPMSModeSuspend` of the imported xgb package
(the spec's level `suspend`), with the value of the DPMS protocol. -/
def DPMSModeSuspend : Nat := 2

/-- Modelled from the spec: `dpms.DPMSModeOff` of the imported xgb package
(the spec's level `off`), with the value of the DPMS protocol. -/
def DPMSModeOff : Nat := 3

/-- The fields of `dpms.CapableReply` the program reads. -/
structure CapableReply where
  Capable : Bool

/-- The fields of `dpms.InfoReply` the program reads. -/
structure InfoReply where
  PowerLevel : Nat
  State : Bool

/-- What `cookie.Reply()` returns for the DPMS queries: an error, or a reply
pointer that the code checks against `nil`. -/
abbrev DPMSReply (α : Type) := Except GoError (Option α)

/-- Source `isDPMSDisplayOn`, given the answer to `dpms.Info(X).Reply()`.
Returns the log lines written and the `(bool, error)` result. -/
def isDPMSDisplayOn (info : DPMSReply InfoReply) : List LogLine × Except GoError Bool :=
  match info with
  | .error err => ([], .error (.join [.new "failed to query DPMS state", err]))
  | .ok none =>
      ([], .error (.join [.new "failed to query DPMS state", .new "reply was nil"]))
  | .ok (some infoReply) =>
      if !infoReply.State then
        ([], .error (.new "DPMS state is false"))
      else if infoReply.PowerLevel = DPMSModeStandby
          ∨ infoReply.PowerLevel = DPMSModeSuspend
          ∨ infoReply.PowerLevel = DPMSModeOff then
        ([], .ok false)
      else if infoReply.PowerLevel = DPMSModeOn then
        ([], .ok true)
      else
        -- default: log, then fall through into the `DPMSModeOn` case
        ([⟨"Unknown DPMS power level (%d)\n", [.num infoReply.PowerLevel]⟩], .ok true)

/-- What an observer goroutine has done once its input is used up. -/
inductive TaskStatus where
  /-- Blocked waiting for the next tick or event; the stream is open. -/
  | waiting
  /-- Returned; the deferred `close` has closed the stream. -/
  | closed
  /-- Panicked before reaching its loop. -/
  | panicked
  deriving DecidableEq, Repr

/-- The observable behaviour of an observer goroutine: the values sent on the
stream in order, the log lines, and how the goroutine ended up. -/
structure Stream where
  sent : List Bool
  log : List LogLine
  status : TaskStatus

/-- The `for` loop of the goroutine of `ListenToDPMSEvents`: one element of
`ticks` per value received from `ticker.C`, holding the answer to the query made
on that tick.  (`ticker.C` is never closed, so `ok` is always true.) -/
def dpmsPollLoop (lastState : Bool) : List (DPMSReply InfoReply) → Stream
  | [] => ⟨[], [], .waiting⟩
  | reply :: ticks =>
      match isDPMSDisplayOn reply with
      | (l, .error err) =>
          ⟨[], l ++ [⟨"failed to get display status", [.err err]⟩], .closed⟩
      | (l, .ok currentState) =>
          if currentState != lastState then
            let s := dpmsPollLoop currentState ticks
            ⟨currentState :: s.sent, l ++ s.log, s.status⟩
          else
            let s := dpmsPollLoop lastState ticks
            ⟨s.sent, l ++ s.log, s.status⟩

/-- Source `ListenToDPMSEvents`.  `initErr` is the result of `dpms.Init`,
`capReply` of `dpms.Capable(X).Reply()`, `first` the answer to the query made
before the goroutine starts, `pollInterval` the duration in nanoseconds and
`ticks` the answers to the queries made on the successive ticks.  An error
result means no stream was returned.  `time.NewTicker` panics on a
non-positive interval. -/
def ListenToDPMSEvents (initErr : Option GoError) (capReply : DPMSReply CapableReply)
    (first : DPMSReply InfoReply) (pollInterval : Int)
    (ticks : List (DPMSReply InfoReply)) : Except GoError Stream :=
  match initErr with
  | some err => .error (.errorf "DPMS not available: %v" [err])
  | none =>
      match capReply with
      | .error _ => .error (.errorf "DPMS not supported" [])
      | .ok none => .error (.errorf "DPMS not supported" [])
      | .ok (some cap) =>
          if !cap.Capable then .error (.errorf "DPMS not supported" [])
          else
            match isDPMSDisplayOn first with
            | (_, .error err) =>
                .error (.join [.new "failure fetching initial dpms state", err])
            | (l, .ok lastState) =>
                if pollInterval ≤ 0 then
                  .ok ⟨[lastState], l, .panicked⟩
                else
                  let s := dpmsPollLoop lastState ticks
                  .ok ⟨lastState :: s.sent, l ++ s.log, s.status⟩

/-! ## xrandr.go -/

/-- Modelled from the spec: `randr.ConnectionConnected` is a constant of the xgb
package, which is not under src/; the spec calls it `connected`.  The value is
the one of the RandR protocol. -/
def ConnectionConnected : Nat := 0

/-- The fields of `randr.GetOutputInfoReply` the program reads. -/
structure GetOutputInfoReply where
  Connection : Nat
  Crtc : Nat

/-- The fields of `randr.GetCrtcInfoReply` the program reads. -/
structure GetCrtcInfoReply where
  Mode : Nat

/-- The answers of the RandR extension at one moment: the output list of
`GetScreenResources`, and the answers of `GetOutputInfo` and `GetCrtcInfo` per
output and per CRTC identifier. -/
structure RandrServer where
  screenResources : Except GoError (List Nat)
  outputInfo : Nat → Except GoError GetOutputInfoReply
  crtcInfo : Nat → Except GoError GetCrtcInfoReply

/-- The `for _, output := range resources.Outputs` loop of `isXrandrDisplayOn`,
with the `return false` that follows it. -/
def scanOutputs (srv : RandrServer) : List Nat → Bool
  | [] => false
  | output :: outputs =>
      match srv.outputInfo output with
      | .error _ => scanOutputs srv outputs
      | .ok info =>
          if info.Connection = ConnectionConnected ∧ info.Crtc ≠ 0 then
            match srv.crtcInfo info.Crtc with
            | .ok crtcInfo =>
                if crtcInfo.Mode ≠ 0 then true else scanOutputs srv outputs
            | .error _ => scanOutputs srv outputs
          else scanOutputs srv outputs

/-- Source `isXrandrDisplayOn`. -/
def isXrandrDisplayOn (srv : RandrServer) : Bool :=
  match srv.screenResources with
  | .error _ => false
  | .ok outputs => scanOutputs srv outputs

/-- The dynamic type of an event returned by `X.WaitForEvent()`, as far as the
type switch of `ListenToXrandrEvents` tells events apart. -/
inductive XEvent where
  | ScreenChangeNotifyEvent
  | NotifyEvent
  | other
  deriving DecidableEq, Repr

/-- The `for` loop of the goroutine of `ListenToXrandrEvents`: one element per
return of `X.WaitForEvent()`, paired with the answers the RandR extension gives
at that moment. -/
def xrandrEventLoop (lastState : Bool) : List (Except GoError XEvent × RandrServer) → Stream
  | [] => ⟨[], [], .waiting⟩
  | (.error err, _) :: _ => ⟨[], [⟨"Xrandr event error: %v", [.err err]⟩], .closed⟩
  | (.ok .other, _) :: events => xrandrEventLoop lastState events
  | (.ok _, srv) :: events =>
      let currentState := isXrandrDisplayOn srv
      if currentState != lastState then
        let s := xrandrEventLoop currentState events
        ⟨currentState :: s.sent, s.log, s.status⟩
      else xrandrEventLoop lastState events

/-- Source `ListenToXrandrEvents`.  `initErr` is the result of `randr.Init`,
`selectErr` of the checked `SelectInput` request, `srv` the RandR answers at the
scan made before the goroutine starts. -/
def ListenToXrandrEvents (initErr selectErr : Option GoError) (srv : RandrServer)
    (events : List (Except GoError XEvent × RandrServer)) : Except GoError Stream :=
  match initErr with
  | some err => .error (.errorf "xrandr not available: %v" [err])
  | none =>
      match selectErr with
      | some err => .error (.errorf "failed to register for xrandr events: %v" [err])
      | none =>
          let lastState := isXrandrDisplayOn srv
          let s := xrandrEventLoop lastState events
          .ok ⟨lastState :: s.sent, s.log, s.status⟩

/-! ## block-overlay.go -/

/-- Modelled from the spec: `xproto.GrabStatusSuccess` is a constant of the xgb
package, which is not under src/; the spec speaks of a grab with a `bad status`.
The value is the one of the X protocol. -/
def GrabStatusSuccess : Nat := 0

/-- The field of `xproto.GrabPointerReply` the program reads. -/
structure GrabPointerReply where
  Status : Nat

/-- The two stacking modes the program passes to `ConfigureWindow`. -/
inductive StackMode where
  | Above
  | Below
  deriving DecidableEq, Repr

/-- A side effect of the overlay code, in the order of the source. -/
inductive Effect where
  | MapWindow (w : Nat)
  | ConfigureWindow (w : Nat) (mode : StackMode)
  | SetInputFocus (w : Nat)
  | Sync
  | Sleep (d : Int)
  | GrabPointer (w : Nat)
  | UngrabKeyboard
  | UngrabPointer
  | UnmapWindow (w : Nat)
  | DestroyWindow (w : Nat)
  | Log (l : LogLine)

/-- Whether an effect is a request sent to the X server. -/
def Effect.isRequest : Effect → Bool
  | .Sleep _ => false
  | .Log _ => false
  | _ => true

/-- Whether an effect is the map-window request. -/
def Effect.isMap : Effect → Bool
  | .MapWindow _ => true
  | _ => false

/-- Whether an effect is the unmap-window request. -/
def Effect.isUnmap : Effect → Bool
  | .UnmapWindow _ => true
  | _ => false

/-- Whether an effect is the lower-to-bottom request. -/
def Effect.isLower : Effect → Bool
  | .ConfigureWindow _ .Below => true
  | _ => false

/-- Whether an effect is the pointer-grab request. -/
def Effect.isGrab : Effect → Bool
  | .GrabPointer _ => true
  | _ => false

/-- Whether an effect is the destroy-window request. -/
def Effect.isDestroy : Effect → Bool
  | .DestroyWindow _ => true
  | _ => false

/-- The mutable fields of the Go struct `BlockOverlay`: the window identifier and
the visibility flag.  (`X`, `screen` and `root` never change; `mu` is the lock.) -/
structure BlockOverlay where
  overlay : Nat
  isActive : Bool

/-- The outcome of one method call: the overlay afterwards, the effects in
order, and the returned `error` (`none` is `nil`). -/
structure OpResult where
  bo : BlockOverlay
  trace : List Effect
  err : Option GoError

/-- The answers of the X server to the requests `Show` may issue. -/
structure ShowReplies where
  mapWindow : Option GoError
  raiseWindow : Option GoError
  grabPointer : Except GoError GrabPointerReply

/-- The answers of the X server to the requests `Hide` may issue. -/
structure HideReplies where
  unmapWindow : Option GoError
  lowerWindow : Option GoError

/-- The answers of the X server to the requests `Destroy` may issue. -/
structure DestroyReplies where
  forHide : HideReplies
  destroyWindow : Option GoError

/-- Source `BlockOverlay.grabInput`: the request and the warning logged. -/
def grabInput (bo : BlockOverlay) (pointerReply : Except GoError GrabPointerReply) :
    List Effect :=
  .GrabPointer bo.overlay ::
    match pointerReply with
    | .error err => [.Log ⟨"Warning: failed to grab pointer: %v", [.err err]⟩]
    | .ok reply =>
        if reply.Status ≠ GrabStatusSuccess then
          [.Log ⟨"Warning: bad pointer grab status: %d", [.num reply.Status]⟩]
        else []

/-- Source `BlockOverlay.Show`. -/
def Show (bo : BlockOverlay) (x : ShowReplies) : OpResult :=
  if bo.isActive then ⟨bo, [], none⟩
  else
    match x.mapWindow with
    | some err =>
        ⟨bo, [.MapWindow bo.overlay], some (.errorf "failed to map window: %v" [err])⟩
    | none =>
        match x.raiseWindow with
        | some err =>
            ⟨bo, [.MapWindow bo.overlay, .ConfigureWindow bo.overlay .Above],
              some (.errorf "failed to raise window: %v" [err])⟩
        | none =>
            ⟨{ bo with isActive := true },
              [.MapWindow bo.overlay, .ConfigureWindow bo.overlay .Above,
                .SetInputFocus bo.overlay, .Sync, .Sleep (50 * Millisecond)]
                ++ grabInput bo x.grabPointer
                ++ [.Log ⟨"Overlay shown - blocking all input", []⟩],
              none⟩

/-- Source `BlockOverlay.Hide`. -/
def Hide (bo : BlockOverlay) (x : HideReplies) : OpResult :=
  if !bo.isActive then ⟨bo, [], none⟩
  else
    match x.unmapWindow with
    | none =>
        ⟨{ bo with isActive := false },
          [.UngrabKeyboard, .UngrabPointer, .UnmapWindow bo.overlay, .Sync,
            .Log ⟨"Overlay hidden - input restored", []⟩],
          none⟩
    | some err =>
        match x.lowerWindow with
        | some err2 =>
            ⟨bo,
              [.UngrabKeyboard, .UngrabPointer, .UnmapWindow bo.overlay,
                .ConfigureWindow bo.overlay .Below],
              some (.join [.new "failed to hide window", err, err2])⟩
        | none =>
            ⟨{ bo with isActive := false },
              [.UngrabKeyboard, .UngrabPointer, .UnmapWindow bo.overlay,
                .ConfigureWindow bo.overlay .Below, .Sync,
                .Log ⟨"Overlay hidden - input restored", []⟩],
              none⟩

/-- Source `BlockOverlay.IsActive`. -/
def IsActive (bo : BlockOverlay) : Bool := bo.isActive

/-- Source `BlockOverlay.Destroy`.  The error of `Hide` is discarded. -/
def Destroy (bo : BlockOverlay) (x : DestroyReplies) : OpResult :=
  let h := Hide bo x.forHide
  if h.bo.overlay ≠ 0 then
    ⟨{ h.bo with overlay := 0 }, h.trace ++ [.DestroyWindow h.bo.overlay], x.destroyWindow⟩
  else ⟨h.bo, h.trace, none⟩

/-! ## main.go and flags.go -/

/-- Source `FlagCfg`; the two numbers are `uint64`. -/
structure FlagCfg where
  UseDPMS : Bool
  Delay : Nat
  PollingInterval : Nat

/-- The defaults registered by `ParseFlags`. -/
def defaultFlagCfg : FlagCfg := ⟨true, 500, 50⟩

/-- What one iteration of the loop of `main` does, in order. -/
inductive LoopStep where
  | Log (l : LogLine)
  | Sleep (d : Int)
  | Show (r : OpResult)
  | Hide (r : OpResult)

/-- The answers of the X server available to one iteration of the loop. -/
structure LoopReplies where
  forShow : ShowReplies
  forHide : HideReplies

/-- The body of the `for` loop of `main` for a value `displayOn` received from
the stream (`ok` true): the overlay afterwards and the steps taken. -/
def loopBody (cfg : FlagCfg) (bo : BlockOverlay) (displayOn : Bool) (x : LoopReplies) :
    BlockOverlay × List LoopStep :=
  let overlayActive := IsActive bo
  if displayOn && overlayActive then
    let r := Hide bo x.forHide
    (r.bo,
      (if cfg.Delay > 0 then
          [.Log ⟨"Waiting additional delay(%dms) before hiding overlay\n", [.num cfg.Delay]⟩,
            .Sleep (durationOfMs cfg.Delay)]
        else [])
        ++ [.Hide r]
        ++ (match r.err with
            | some err => [.Log ⟨"Failed to hide overlay: %v\n", [.err err]⟩]
            | none => []))
  else if !displayOn && !overlayActive then
    let r := Show bo x.forShow
    (r.bo,
      [.Show r]
        ++ (match r.err with
            | some err => [.Log ⟨"failed to show overlay: %v\n", [.err err]⟩]
            | none => []))
  else (bo, [])

/-- The `for` loop of `main` run over the values received from the stream, one
set of server answers per value: the overlay after each value, with the steps
taken for it. -/
def mainLoop (cfg : FlagCfg) (bo : BlockOverlay) :
    List (Bool × LoopReplies) → List (BlockOverlay × List LoopStep)
  | [] => []
  | (displayOn, x) :: events =>
      let r := loopBody cfg bo displayOn x
      r :: mainLoop cfg r.1 events

/-- Whether a step is a call of `Show`. -/
def LoopStep.isShow : LoopStep → Bool
  | .Show _ => true
  | _ => false

/-- Whether a step is a call of `Hide`. -/
def LoopStep.isHide : LoopStep → Bool
  | .Hide _ => true
  | _ => false

/-- The error returned by the method call of a step, if the step is one. -/
def LoopStep.callErr : LoopStep → Option GoError
  | .Show r => r.err
  | .Hide r => r.err
  | _ => none

/-! ## Scenarios used by the concrete checks -/

/-- A successful power-management reply with the enable flag set. -/
def enabledInfo (level : Nat) : DPMSReply InfoReply := .ok (some ⟨level, true⟩)

/-- The states scanned at the notifications that pass the type switch of
`ListenToXrandrEvents`, in order. -/
def relevantScans : List (XEvent × RandrServer) → List Bool
  | [] => []
  | (.other, _) :: events => relevantScans events
  | (_, srv) :: events => isXrandrDisplayOn srv :: relevantScans events

/-- Two outputs, the first disconnected without CRTC, the second connected on
CRTC 7, whose mode is `mode`; every other query fails. -/
def scenarioC (mode : Nat) : RandrServer where
  screenResources := .ok [1, 2]
  outputInfo := fun o =>
    if o = 1 then .ok ⟨1, 0⟩ else if o = 2 then .ok ⟨ConnectionConnected, 7⟩ else .error (.x 3)
  crtcInfo := fun c => if c = 7 then .ok ⟨mode⟩ else .error (.x 3)

/-- The effects of calling `Show` twice in a row, the server answering `x1` to
the first call and `x2` to the second. -/
def showTwice (bo : BlockOverlay) (x1 x2 : ShowReplies) : List Effect :=
  (Show bo x1).trace ++ (Show (Show bo x1).bo x2).trace

/-- The effects of calling `Hide` twice in a row, the server answering `y1` to
the first call and `y2` to the second. -/
def hideTwice (bo : BlockOverlay) (y1 y2 : HideReplies) : List Effect :=
  (Hide bo y1).trace ++ (Hide (Hide bo y1).bo y2).trace

/-- Server answers under which every request of `Show` and `Hide` succeeds. -/
def allSucceed : LoopReplies := ⟨⟨none, none, .ok ⟨GrabStatusSuccess⟩⟩, ⟨none, none⟩⟩

/-- Server answers under which both the unmap and the lower request fail. -/
def hideFails : HideReplies := ⟨some (.x 1), some (.x 2)⟩

/-! ## Lemmas -/

theorem dpmsPollLoop_ok (lastState : Bool) (ticks : List (DPMSReply InfoReply))
    (rs : List Bool)
    (hs : List.Forall₂ (fun reply r => (isDPMSDisplayOn reply).2 = .ok r) ticks rs) :
    lastState :: (dpmsPollLoop lastState ticks).sent = List.destutter' (· ≠ ·) lastState rs
      ∧ (dpmsPollLoop lastState ticks).status = .waiting := by
  induction hs generalizing lastState with
  | nil => simp [dpmsPollLoop]
  | @cons reply r ticks rs h _ ih =>
      rcases hq : isDPMSDisplayOn reply with ⟨l, res⟩
      rw [hq] at h
      simp only at h
      subst h
      by_cases hne : r = lastState
      · subst hne
        have := ih r
        simp [dpmsPollLoop, hq, List.destutter'_cons, this]
      · have := ih r
        have hne2 : lastState ≠ r := fun h => hne h.symm
        simp [dpmsPollLoop, hq, List.destutter'_cons, hne, hne2, this]

theorem dpmsPollLoop_fail (lastState : Bool) (pre : List (DPMSReply InfoReply))
    (rs : List Bool) (bad : DPMSReply InfoReply) (post : List (DPMSReply InfoReply))
    (e : GoError)
    (hs : List.Forall₂ (fun reply r => (isDPMSDisplayOn reply).2 = .ok r) pre rs)
    (hbad : (isDPMSDisplayOn bad).2 = .error e) :
    lastState :: (dpmsPollLoop lastState (pre ++ bad :: post)).sent
        = List.destutter' (· ≠ ·) lastState rs
      ∧ (dpmsPollLoop lastState (pre ++ bad :: post)).status = .closed := by
  induction hs generalizing lastState with
  | nil =>
      rcases hq : isDPMSDisplayOn bad with ⟨l, res⟩
      rw [hq] at hbad
      simp only at hbad
      subst hbad
      simp [dpmsPollLoop, hq]
  | @cons reply r ticks rs h _ ih =>
      rcases hq : isDPMSDisplayOn reply with ⟨l, res⟩
      rw [hq] at h
      simp only at h
      subst h
      by_cases hne : r = lastState
      · subst hne
        have := ih r
        simp [dpmsPollLoop, hq, List.destutter'_cons, this]
      · have := ih r
        have hne2 : lastState ≠ r := fun h => hne h.symm
        simp [dpmsPollLoop, hq, List.destutter'_cons, hne, hne2, this]

theorem xrandrEventLoop_ok (lastState : Bool) (events : List (XEvent × RandrServer)) :
    lastState :: (xrandrEventLoop lastState (events.map fun e => (.ok e.1, e.2))).sent
        = List.destutter' (· ≠ ·) lastState (relevantScans events)
      ∧ (xrandrEventLoop lastState (events.map fun e => (.ok e.1, e.2))).status
        = .waiting := by
  induction events generalizing lastState with
  | nil => simp [xrandrEventLoop, relevantScans]
  | cons ev events ih =>
      rcases ev with ⟨ev, srv⟩
      cases ev
      all_goals first
        | (simp only [List.map_cons, xrandrEventLoop, relevantScans]; exact ih lastState)
        | (simp only [List.map_cons, xrandrEventLoop, relevantScans]
           by_cases hne : isXrandrDisplayOn srv = lastState
           · have := ih lastState
             simp [List.destutter'_cons, hne, this]
           · have := ih (isXrandrDisplayOn srv)
             have hne2 : lastState ≠ isXrandrDisplayOn srv := fun h => hne h.symm
             simp [List.destutter'_cons, hne, hne2, this])

theorem scanOutputs_iff (srv : RandrServer) (outputs : List Nat) :
    scanOutputs srv outputs = true ↔
      ∃ o ∈ outputs, ∃ info, srv.outputInfo o = .ok info
        ∧ info.Connection = ConnectionConnected ∧ info.Crtc ≠ 0
        ∧ ∃ c, srv.crtcInfo info.Crtc = .ok c ∧ c.Mode ≠ 0 := by
  induction outputs with
  | nil => simp [scanOutputs]
  | cons o outputs ih =>
      simp only [List.mem_cons, exists_eq_or_imp]
      rw [← ih, scanOutputs]
      cases ho : srv.outputInfo o with
      | error e => simp
      | ok info =>
          by_cases hc : info.Connection = ConnectionConnected ∧ info.Crtc ≠ 0
          · cases hci : srv.crtcInfo info.Crtc with
            | error e => simp [hc, hci]
            | ok c =>
                by_cases hm : c.Mode = 0
                · simp [hc, hci, hm]
                · simp [hc, hci, hm]
          · simp only [Except.ok.injEq, exists_eq_left', if_neg hc]
            constructor
            · intro h; exact Or.inr h
            · rintro (⟨h1, h2, _⟩ | h)
              · exact absurd ⟨h1, h2⟩ hc
              · exact h

/-! ## The observers -/

/-- C1: for both observers, when the open succeeds and every raw observation
succeeds (`r0` at open, then one per poll tick for `ListenToDPMSEvents`, one per
notification passing the type switch for `ListenToXrandrEvents`), the values
sent on the stream are the raw observations with every run of consecutive equal
values collapsed: the first sent value is `r0`, and no two consecutive sent
values are equal. -/
theorem observers_send_collapsed_runs
    (cap : CapableReply) (first : DPMSReply InfoReply) (pollInterval : Int)
    (ticks : List (DPMSReply InfoReply)) (r0 : Bool) (rs : List Bool)
    (srv : RandrServer) (events : List (XEvent × RandrServer))
    (hcap : cap.Capable = true) (hpoll : 0 < pollInterval)
    (h0 : (isDPMSDisplayOn first).2 = .ok r0)
    (hs : List.Forall₂ (fun reply r => (isDPMSDisplayOn reply).2 = .ok r) ticks rs) :
    (∃ s, ListenToDPMSEvents none (.ok (some cap)) first pollInterval ticks = .ok s
        ∧ s.sent = List.destutter (· ≠ ·) (r0 :: rs)
        ∧ s.sent.head? = some r0 ∧ s.sent.Chain' (· ≠ ·))
    ∧ (∃ s, ListenToXrandrEvents none none srv (events.map fun e => (.ok e.1, e.2)) = .ok s
        ∧ s.sent = List.destutter (· ≠ ·) (isXrandrDisplayOn srv :: relevantScans events)
        ∧ s.sent.head? = some (isXrandrDisplayOn srv) ∧ s.sent.Chain' (· ≠ ·)) := by
  constructor
  · rcases hq : isDPMSDisplayOn first with ⟨l, res⟩
    rw [hq] at h0
    simp only at h0
    subst h0
    have hl := dpmsPollLoop_ok r0 ticks rs hs
    refine ⟨⟨r0 :: (dpmsPollLoop r0 ticks).sent, l ++ (dpmsPollLoop r0 ticks).log,
      (dpmsPollLoop r0 ticks).status⟩, ?_, ?_, ?_, ?_⟩
    · simp [ListenToDPMSEvents, hq, hcap, not_le.2 hpoll]
    · simpa [List.destutter] using hl.1
    · simp
    · simp only
      rw [hl.1]
      exact List.destutter'_is_chain' _ _ _
  · have hl := xrandrEventLoop_ok (isXrandrDisplayOn srv) events
    refine ⟨_, rfl, ?_, ?_, ?_⟩
    · simpa [List.destutter] using hl.1
    · simp
    · simp only
      rw [hl.1]
      exact List.destutter'_is_chain' _ _ _

/-- A concrete instance of C1 (scenario B): raw observations on, off, off, on
are sent as on, off, on by both observers. -/
theorem observers_send_collapsed_runs_witness :
    (∃ s, ListenToDPMSEvents none (.ok (some ⟨true⟩)) (enabledInfo DPMSModeOn) 50000000
          [enabledInfo DPMSModeOff, enabledInfo DPMSModeOff, enabledInfo DPMSModeOn] = .ok s
        ∧ s.sent = [true, false, true])
    ∧ (∃ s, ListenToXrandrEvents none none (scenarioC 3)
          ([(.NotifyEvent, scenarioC 0), (.ScreenChangeNotifyEvent, scenarioC 0),
            (.NotifyEvent, scenarioC 3)].map fun e => (.ok e.1, e.2)) = .ok s
        ∧ s.sent = [true, false, true]) := by
  have h := observers_send_collapsed_runs ⟨true⟩ (enabledInfo DPMSModeOn) 50000000
    [enabledInfo DPMSModeOff, enabledInfo DPMSModeOff, enabledInfo DPMSModeOn]
    true [false, false, true] (scenarioC 3)
    [(.NotifyEvent, scenarioC 0), (.ScreenChangeNotifyEvent, scenarioC 0),
      (.NotifyEvent, scenarioC 3)]
    rfl (by decide) rfl
    (.cons rfl (.cons rfl (.cons rfl .nil)))
  obtain ⟨⟨s, hs, hsent, _⟩, ⟨t, ht, htsent, _⟩⟩ := h
  refine ⟨⟨s, hs, ?_⟩, ⟨t, ht, ?_⟩⟩
  · rw [hsent]; decide
  · rw [htsent]; decide

/-- C7: in the polling observer, after a successful open, the first poll whose
query fails (error or nil reply) or whose enable flag is false ends the
goroutine: the stream is closed, and the values sent are exactly the collapsed
observations made before that poll, whatever the later polls would answer. -/
theorem dpms_first_failed_poll_closes_stream
    (cap : CapableReply) (first : DPMSReply InfoReply) (pollInterval : Int)
    (pre : List (DPMSReply InfoReply)) (bad : DPMSReply InfoReply)
    (post : List (DPMSReply InfoReply)) (r0 : Bool) (rs : List Bool)
    (hcap : cap.Capable = true) (hpoll : 0 < pollInterval)
    (h0 : (isDPMSDisplayOn first).2 = .ok r0)
    (hs : List.Forall₂ (fun reply r => (isDPMSDisplayOn reply).2 = .ok r) pre rs)
    (hbad : (∃ e, bad = .error e) ∨ bad = .ok none
      ∨ ∃ level, bad = .ok (some ⟨level, false⟩)) :
    ∃ s, ListenToDPMSEvents none (.ok (some cap)) first pollInterval (pre ++ bad :: post)
          = .ok s
      ∧ s.status = .closed
      ∧ s.sent = List.destutter (· ≠ ·) (r0 :: rs) := by
  have hb : ∃ e, (isDPMSDisplayOn bad).2 = .error e := by
    rcases hbad with ⟨e, rfl⟩ | rfl | ⟨level, rfl⟩
    · exact ⟨_, rfl⟩
    · exact ⟨_, rfl⟩
    · exact ⟨_, rfl⟩
  obtain ⟨e, hb⟩ := hb
  rcases hq : isDPMSDisplayOn first with ⟨l, res⟩
  rw [hq] at h0
  simp only at h0
  subst h0
  have hl := dpmsPollLoop_fail r0 pre rs bad post e hs hb
  refine ⟨⟨r0 :: (dpmsPollLoop r0 (pre ++ bad :: post)).sent,
    l ++ (dpmsPollLoop r0 (pre ++ bad :: post)).log,
    (dpmsPollLoop r0 (pre ++ bad :: post)).status⟩, ?_, ?_, ?_⟩
  · simp [ListenToDPMSEvents, hq, hcap, not_le.2 hpoll]
  · exact hl.2
  · simpa [List.destutter] using hl.1

/-- A concrete instance of C7: polls on, off, then a reply with the enable flag
false, then on: the stream carries on, off (after the initial on is collapsed)
and is closed; the last poll is never made. -/
theorem dpms_first_failed_poll_closes_stream_witness :
    ∃ s, ListenToDPMSEvents none (.ok (some ⟨true⟩)) (enabledInfo DPMSModeOn) 50000000
          ([enabledInfo DPMSModeOn, enabledInfo DPMSModeOff]
            ++ .ok (some ⟨DPMSModeOn, false⟩) :: [enabledInfo DPMSModeOn]) = .ok s
      ∧ s.status = .closed ∧ s.sent = [true, false] := by
  obtain ⟨s, hs, hst, hsent⟩ := dpms_first_failed_poll_closes_stream ⟨true⟩
    (enabledInfo DPMSModeOn) 50000000 [enabledInfo DPMSModeOn, enabledInfo DPMSModeOff]
    (.ok (some ⟨DPMSModeOn, false⟩)) [enabledInfo DPMSModeOn] true [true, false]
    rfl (by decide) rfl (.cons rfl (.cons rfl .nil)) (Or.inr (Or.inr ⟨_, rfl⟩))
  exact ⟨s, hs, hst, by rw [hsent]; decide⟩

/-- C6: for a successful power-management query whose enable flag is true,
`isDPMSDisplayOn` returns false for the levels standby, suspend and off, true
for the level on, true for every other level, and never an error. -/
theorem isDPMSDisplayOn_enabled (info : InfoReply) (hstate : info.State = true) :
    ((info.PowerLevel = DPMSModeStandby ∨ info.PowerLevel = DPMSModeSuspend
        ∨ info.PowerLevel = DPMSModeOff) →
      (isDPMSDisplayOn (.ok (some info))).2 = .ok false)
    ∧ (info.PowerLevel = DPMSModeOn → (isDPMSDisplayOn (.ok (some info))).2 = .ok true)
    ∧ ((info.PowerLevel ≠ DPMSModeOn ∧ info.PowerLevel ≠ DPMSModeStandby
        ∧ info.PowerLevel ≠ DPMSModeSuspend ∧ info.PowerLevel ≠ DPMSModeOff) →
      (isDPMSDisplayOn (.ok (some info))).2 = .ok true)
    ∧ (∃ b, (isDPMSDisplayOn (.ok (some info))).2 = .ok b) := by
  refine ⟨?_, ?_, ?_, ?_⟩
  · intro h
    simp [isDPMSDisplayOn, hstate, h]
  · intro h
    simp [isDPMSDisplayOn, hstate, h, DPMSModeOn, DPMSModeStandby, DPMSModeSuspend,
      DPMSModeOff]
  · rintro ⟨h1, h2, h3, h4⟩
    simp [isDPMSDisplayOn, hstate, h1, h2, h3, h4]
  · by_cases h : info.PowerLevel = DPMSModeStandby ∨ info.PowerLevel = DPMSModeSuspend
        ∨ info.PowerLevel = DPMSModeOff
    · exact ⟨false, by simp [isDPMSDisplayOn, hstate, h]⟩
    · refine ⟨true, ?_⟩
      by_cases h2 : info.PowerLevel = DPMSModeOn
      · simp [isDPMSDisplayOn, hstate, h2, DPMSModeOn, DPMSModeStandby, DPMSModeSuspend,
          DPMSModeOff]
      · simp [isDPMSDisplayOn, hstate, h, h2]

/-- A concrete instance of C6: the levels off, on and the undocumented level 7
give false, true and true. -/
theorem isDPMSDisplayOn_enabled_witness :
    (isDPMSDisplayOn (.ok (some ⟨DPMSModeOff, true⟩))).2 = .ok false
    ∧ (isDPMSDisplayOn (.ok (some ⟨DPMSModeOn, true⟩))).2 = .ok true
    ∧ (isDPMSDisplayOn (.ok (some ⟨7, true⟩))).2 = .ok true :=
  ⟨(isDPMSDisplayOn_enabled ⟨DPMSModeOff, true⟩ rfl).1 (Or.inr (Or.inr rfl)),
    (isDPMSDisplayOn_enabled ⟨DPMSModeOn, true⟩ rfl).2.1 rfl,
    (isDPMSDisplayOn_enabled ⟨7, true⟩ rfl).2.2.1 (by decide)⟩

/-- C5: given the list of outputs, `isXrandrDisplayOn` returns true exactly when
some output's info query succeeds and reports it connected with a non-null
CRTC whose info query succeeds with a non-null mode; an output whose info query
fails is skipped and the scan goes on with the remaining outputs. -/
theorem isXrandrDisplayOn_iff (outputs : List Nat)
    (outputInfo : Nat → Except GoError GetOutputInfoReply)
    (crtcInfo : Nat → Except GoError GetCrtcInfoReply) :
    (isXrandrDisplayOn ⟨.ok outputs, outputInfo, crtcInfo⟩ = true ↔
      ∃ o ∈ outputs, ∃ info, outputInfo o = .ok info
        ∧ info.Connection = ConnectionConnected ∧ info.Crtc ≠ 0
        ∧ ∃ c, crtcInfo info.Crtc = .ok c ∧ c.Mode ≠ 0)
    ∧ (∀ o rest e, outputInfo o = .error e →
        isXrandrDisplayOn ⟨.ok (o :: rest), outputInfo, crtcInfo⟩
          = isXrandrDisplayOn ⟨.ok rest, outputInfo, crtcInfo⟩) := by
  constructor
  · exact scanOutputs_iff ⟨.ok outputs, outputInfo, crtcInfo⟩ outputs
  · intro o rest e he
    rw [Bool.eq_iff_iff]
    simp only [isXrandrDisplayOn]
    rw [scanOutputs_iff, scanOutputs_iff]
    simp [he]

/-- A concrete instance of C5 (scenario C): a disconnected output without CRTC
and a connected output on CRTC 7 give true when CRTC 7 has mode 3 and false when
it has the null mode; a failing output in front changes nothing. -/
theorem isXrandrDisplayOn_iff_witness :
    isXrandrDisplayOn (scenarioC 3) = true
    ∧ isXrandrDisplayOn (scenarioC 0) = false
    ∧ isXrandrDisplayOn ⟨.ok [5, 1, 2], (scenarioC 3).outputInfo, (scenarioC 3).crtcInfo⟩
        = isXrandrDisplayOn ⟨.ok [1, 2], (scenarioC 3).outputInfo, (scenarioC 3).crtcInfo⟩ := by
  refine ⟨?_, ?_, ?_⟩
  · exact (isXrandrDisplayOn_iff [1, 2] (scenarioC 3).outputInfo (scenarioC 3).crtcInfo).1.2
      ⟨2, by simp, ⟨ConnectionConnected, 7⟩, rfl, rfl, by decide, ⟨3⟩, rfl, by decide⟩
  · rw [Bool.eq_false_iff]
    intro h
    obtain ⟨o, ho, info, hinfo, hconn, hcrtc, c, hc, hmode⟩ :=
      (isXrandrDisplayOn_iff [1, 2] (scenarioC 0).outputInfo (scenarioC 0).crtcInfo).1.1 h
    simp only [List.mem_cons, List.mem_singleton, List.not_mem_nil, or_false] at ho
    rcases ho with rfl | rfl
    · simp [scenarioC] at hinfo
      subst hinfo
      exact hcrtc rfl
    · simp [scenarioC] at hinfo
      subst hinfo
      simp [scenarioC] at hc
      subst hc
      exact hmode rfl
  · exact (isXrandrDisplayOn_iff [1, 2] (scenarioC 3).outputInfo (scenarioC 3).crtcInfo).2
      5 [1, 2] (.x 3) rfl

/-! ## The overlay -/

theorem loopBody_isActive_of_ok (cfg : FlagCfg) (bo : BlockOverlay) (displayOn : Bool)
    (x : LoopReplies)
    (hok : ∀ s ∈ (loopBody cfg bo displayOn x).2, s.callErr = none) :
    IsActive (loopBody cfg bo displayOn x).1 = !displayOn := by
  rcases bo with ⟨w, a⟩
  rcases x with ⟨⟨m, r, g⟩, ⟨u, l⟩⟩
  cases displayOn <;> cases a
  · cases m with
    | some e => simp [loopBody, IsActive, Show, LoopStep.callErr] at hok
    | none =>
        cases r with
        | some e => simp [loopBody, IsActive, Show, LoopStep.callErr] at hok
        | none => simp [loopBody, IsActive, Show]
  · simp [loopBody, IsActive]
  · simp [loopBody, IsActive]
  · cases u with
    | none => simp [loopBody, IsActive, Hide]
    | some e =>
        cases l with
        | none => simp [loopBody, IsActive, Hide]
        | some e2 =>
            exfalso
            have := hok (.Hide (Hide ⟨w, true⟩ ⟨some e, some e2⟩))
              (by simp [loopBody, IsActive])
            simp [LoopStep.callErr, Hide] at this

/-- The dispatch of one iteration of the loop of `main`, for every configured
delay: `Show` is called (once) exactly when the event is Off and `IsActive()` is
false, `Hide` (once) exactly when the event is On and `IsActive()` is true; the
`Hide` call comes first when the delay is zero and right after a `time.Sleep`
when it is greater than zero; in the two remaining cases nothing is done.  The
duration passed to `time.Sleep` is `time.Duration(cfg.Delay) * time.Millisecond`,
which is `cfg.Delay` milliseconds only while that fits an `int64` count of
nanoseconds. -/
theorem loopBody_dispatch (cfg : FlagCfg) (bo : BlockOverlay) (displayOn : Bool)
    (x : LoopReplies) :
    ((loopBody cfg bo displayOn x).2.countP LoopStep.isShow
        = if displayOn = false ∧ IsActive bo = false then 1 else 0)
    ∧ ((loopBody cfg bo displayOn x).2.countP LoopStep.isHide
        = if displayOn = true ∧ IsActive bo = true then 1 else 0)
    ∧ (displayOn = false → IsActive bo = false →
        (loopBody cfg bo displayOn x).1 = (Show bo x.forShow).bo
        ∧ ∃ logs, (loopBody cfg bo displayOn x).2 = .Show (Show bo x.forShow) :: logs)
    ∧ (displayOn = true → IsActive bo = true →
        (loopBody cfg bo displayOn x).1 = (Hide bo x.forHide).bo
        ∧ (cfg.Delay = 0 →
            ∃ logs, (loopBody cfg bo displayOn x).2 = .Hide (Hide bo x.forHide) :: logs)
        ∧ (0 < cfg.Delay →
            ∃ l logs, (loopBody cfg bo displayOn x).2
              = .Log l :: .Sleep (durationOfMs cfg.Delay) :: .Hide (Hide bo x.forHide) :: logs))
    ∧ (displayOn ≠ IsActive bo → loopBody cfg bo displayOn x = (bo, []))
    ∧ (cfg.Delay ≤ 9223372036854 → durationOfMs cfg.Delay = cfg.Delay * Millisecond) := by
  refine ⟨?_, ?_, ?_, ?_, ?_, ?_⟩
  · rcases bo with ⟨w, a⟩
    cases displayOn <;> cases a
    · cases he : (Show ⟨w, false⟩ x.forShow).err <;>
        simp [loopBody, IsActive, he, LoopStep.isShow, List.countP_cons]
    · simp [loopBody, IsActive]
    · simp [loopBody, IsActive]
    · by_cases hd : 0 < cfg.Delay <;> cases he : (Hide ⟨w, true⟩ x.forHide).err <;>
        simp [loopBody, IsActive, he, hd, LoopStep.isShow, List.countP_cons]
  · rcases bo with ⟨w, a⟩
    cases displayOn <;> cases a
    · cases he : (Show ⟨w, false⟩ x.forShow).err <;>
        simp [loopBody, IsActive, he, LoopStep.isHide, List.countP_cons]
    · simp [loopBody, IsActive]
    · simp [loopBody, IsActive]
    · by_cases hd : 0 < cfg.Delay <;> cases he : (Hide ⟨w, true⟩ x.forHide).err <;>
        simp [loopBody, IsActive, he, hd, LoopStep.isHide, List.countP_cons]
  · intro hd ha
    subst hd
    simp [loopBody, ha]
  · intro hd ha
    subst hd
    refine ⟨by simp [loopBody, ha], ?_, ?_⟩
    · intro h0
      simp [loopBody, ha, h0]
    · intro hpos
      simp [loopBody, ha, hpos]
  · intro h
    rcases bo with ⟨w, a⟩
    cases displayOn <;> cases a <;> simp [loopBody, IsActive] at h ⊢
  · intro h
    have h1 : (0 : Int) ≤ (cfg.Delay : Int) := Int.ofNat_nonneg _
    have h2 : (cfg.Delay : Int) ≤ 9223372036854 := by exact_mod_cast h
    simp only [durationOfMs, wrapInt64, Millisecond]
    omega

/-- Scenario A: a first event On while the overlay is Hidden calls neither
`Show` nor `Hide`; with the default delay of 500 ms an event On while Visible
sleeps 500 000 000 ns and then calls `Hide`. -/
theorem loopBody_scenarioA :
    loopBody defaultFlagCfg ⟨5, false⟩ true allSucceed = (⟨5, false⟩, [])
    ∧ (∃ l logs, (loopBody defaultFlagCfg ⟨5, true⟩ true allSucceed).2
        = .Log l :: .Sleep (durationOfMs 500)
            :: .Hide (Hide ⟨5, true⟩ allSucceed.forHide) :: logs)
    ∧ durationOfMs 500 = 500 * Millisecond :=
  ⟨(loopBody_dispatch defaultFlagCfg ⟨5, false⟩ true allSucceed).2.2.2.2.1 (by decide),
    ((loopBody_dispatch defaultFlagCfg ⟨5, true⟩ true allSucceed).2.2.2.1 rfl rfl).2.2
      (by decide),
    (loopBody_dispatch defaultFlagCfg ⟨5, true⟩ true allSucceed).2.2.2.2.2 (by decide)⟩

/-- C2: the sleep clause fails on the code at `-delay=9223372036855`.  For an
event On while the overlay is Visible the iteration logs the wait of
9223372036855 ms and calls `Hide`, but the duration handed to `time.Sleep` is
`-9223372036854551616` ns, for which `Sleep` waits nothing; one millisecond
less, at 9223372036854, the duration is still the configured delay. -/
theorem loopBody_delay_overflow_no_sleep :
    (loopBody ⟨true, 9223372036855, 50⟩ ⟨5, true⟩ true allSucceed).2
        = [.Log ⟨"Waiting additional delay(%dms) before hiding overlay\n",
              [.num 9223372036855]⟩,
            .Sleep (-9223372036854551616),
            .Hide (Hide ⟨5, true⟩ allSucceed.forHide)]
    ∧ sleepWait (durationOfMs 9223372036855) = 0
    ∧ sleepWait (durationOfMs 9223372036854) = 9223372036854 * 1000000 := by
  refine ⟨?_, ?_, ?_⟩
  · have hd : durationOfMs 9223372036855 = -9223372036854551616 := by
      simp only [durationOfMs, wrapInt64, Millisecond]
      norm_num
    simp [loopBody, IsActive, Hide, allSucceed, hd]
  · have hd : durationOfMs 9223372036855 = -9223372036854551616 := by
      simp only [durationOfMs, wrapInt64, Millisecond]
      norm_num
    rw [hd]
    rfl
  · have hd : durationOfMs 9223372036854 = 9223372036854000000 := by
      simp only [durationOfMs, wrapInt64, Millisecond]
      norm_num
    rw [hd]
    rfl

/-- C3 as stated fails: when the overlay is Visible and both the unmap and the
lower request fail, `Hide` returns the joined error and `IsActive()` still
returns true. -/
theorem Hide_both_fail_stays_visible :
    IsActive (Hide ⟨5, true⟩ hideFails).bo = true
    ∧ (Hide ⟨5, true⟩ hideFails).err
        = some (.join [.new "failed to hide window", .x 1, .x 2]) :=
  ⟨rfl, rfl⟩

/-- C3, amended: for a `Hide` call made while the overlay is Visible, the unmap
request is issued once and the lower-to-bottom fallback is issued exactly when
the unmap fails; the controller records Hidden and no error is returned when the
unmap succeeds or the fallback succeeds; when both fail, the joined error is
returned and the controller still records Visible. -/
theorem Hide_visible_outcomes (bo : BlockOverlay) (x : HideReplies)
    (hv : bo.isActive = true) :
    (Hide bo x).trace.countP Effect.isUnmap = 1
    ∧ ((Hide bo x).trace.countP Effect.isLower = if x.unmapWindow.isSome then 1 else 0)
    ∧ (x.unmapWindow = none →
        IsActive (Hide bo x).bo = false ∧ (Hide bo x).err = none)
    ∧ (x.unmapWindow ≠ none → x.lowerWindow = none →
        IsActive (Hide bo x).bo = false ∧ (Hide bo x).err = none)
    ∧ (∀ err err2, x.unmapWindow = some err → x.lowerWindow = some err2 →
        IsActive (Hide bo x).bo = true
        ∧ (Hide bo x).err = some (.join [.new "failed to hide window", err, err2])) := by
  rcases bo with ⟨w, a⟩
  rcases x with ⟨u, l⟩
  simp only at hv
  subst hv
  cases u <;> cases l <;>
    simp [Hide, IsActive, Effect.isUnmap, Effect.isLower, List.countP_cons]

/-- A concrete instance of the amended C3: the unmap fails, the fallback
succeeds, and the controller records Hidden without error. -/
theorem Hide_visible_outcomes_witness :
    IsActive (Hide ⟨5, true⟩ ⟨some (.x 1), none⟩).bo = false
    ∧ (Hide ⟨5, true⟩ ⟨some (.x 1), none⟩).err = none :=
  (Hide_visible_outcomes ⟨5, true⟩ ⟨some (.x 1), none⟩ rfl).2.2.2.1 (by simp) rfl

/-- C4 as stated fails: from Hidden, when the map request fails, two
consecutive `Show` calls issue it twice; from Visible, when the unmap and the
fallback fail, two consecutive `Hide` calls issue the unmap request twice; and
from Visible two consecutive `Show` calls issue no map request. -/
theorem twice_after_failure_repeats_request :
    (showTwice ⟨5, false⟩ ⟨some (.x 8), none, .ok ⟨GrabStatusSuccess⟩⟩
        ⟨some (.x 8), none, .ok ⟨GrabStatusSuccess⟩⟩).countP Effect.isMap = 2
    ∧ (hideTwice ⟨5, true⟩ hideFails hideFails).countP Effect.isUnmap = 2
    ∧ (showTwice ⟨5, true⟩ allSucceed.forShow allSucceed.forShow).countP Effect.isMap = 0 :=
  ⟨rfl, rfl, rfl⟩

/-- C4, amended: from Hidden, when the first `Show` returns no error, two
consecutive `Show` calls issue the map-window request exactly once and the
second call does nothing; from Visible, when the first `Hide` returns no error,
two consecutive `Hide` calls issue the unmap-window request exactly once and the
second call does nothing; `Show` while Visible and `Hide` while Hidden do
nothing at all. -/
theorem Show_Hide_twice (bo : BlockOverlay) (x1 x2 : ShowReplies) (y1 y2 : HideReplies) :
    (bo.isActive = false → (Show bo x1).err = none →
        (showTwice bo x1 x2).countP Effect.isMap = 1
        ∧ Show (Show bo x1).bo x2 = ⟨(Show bo x1).bo, [], none⟩)
    ∧ (bo.isActive = true → (Hide bo y1).err = none →
        (hideTwice bo y1 y2).countP Effect.isUnmap = 1
        ∧ Hide (Hide bo y1).bo y2 = ⟨(Hide bo y1).bo, [], none⟩)
    ∧ (bo.isActive = true → Show bo x1 = ⟨bo, [], none⟩)
    ∧ (bo.isActive = false → Hide bo y1 = ⟨bo, [], none⟩) := by
  rcases bo with ⟨w, a⟩
  rcases x1 with ⟨m, r, g⟩
  rcases y1 with ⟨u, l⟩
  refine ⟨?_, ?_, ?_, ?_⟩
  · intro ha he
    simp only at ha
    subst ha
    cases m with
    | some e => simp [Show] at he
    | none =>
        cases r with
        | some e => simp [Show] at he
        | none =>
            cases g with
            | error e =>
                simp [showTwice, Show, grabInput, Effect.isMap, List.countP_cons]
            | ok reply =>
                by_cases hs : reply.Status = GrabStatusSuccess <;>
                  simp [showTwice, Show, grabInput, Effect.isMap, List.countP_cons, hs]
  · intro ha he
    simp only at ha
    subst ha
    cases u with
    | none => simp [hideTwice, Hide, Effect.isUnmap, List.countP_cons]
    | some e =>
        cases l with
        | none => simp [hideTwice, Hide, Effect.isUnmap, List.countP_cons]
        | some e2 => simp [Hide] at he
  · intro ha
    simp only at ha
    subst ha
    simp [Show]
  · intro ha
    simp only at ha
    subst ha
    simp [Hide]

/-- A concrete instance of the amended C4: with every request succeeding, two
`Show` calls from Hidden map the window once, and two `Hide` calls from Visible
unmap it once. -/
theorem Show_Hide_twice_witness :
    (showTwice ⟨5, false⟩ allSucceed.forShow allSucceed.forShow).countP Effect.isMap = 1
    ∧ (hideTwice ⟨5, true⟩ allSucceed.forHide allSucceed.forHide).countP Effect.isUnmap = 1 :=
  ⟨((Show_Hide_twice ⟨5, false⟩ allSucceed.forShow allSucceed.forShow allSucceed.forHide
      allSucceed.forHide).1 rfl rfl).1,
    ((Show_Hide_twice ⟨5, true⟩ allSucceed.forShow allSucceed.forShow allSucceed.forHide
      allSucceed.forHide).2.1 rfl rfl).1⟩

/-- C8: for a `Show` call made while Hidden in which the map and the raise
succeed, the pointer grab is attempted (once, after the map), the controller
records Visible and `Show` returns no error, whatever the grab answers: success,
an error, or a status other than success. -/
theorem Show_visible_whatever_grab (bo : BlockOverlay) (x : ShowReplies)
    (hh : bo.isActive = false) (hmap : x.mapWindow = none)
    (hraise : x.raiseWindow = none) :
    (Show bo x).trace.countP Effect.isGrab = 1
    ∧ Effect.GrabPointer bo.overlay ∈ (Show bo x).trace
    ∧ IsActive (Show bo x).bo = true
    ∧ (Show bo x).err = none := by
  rcases bo with ⟨w, a⟩
  rcases x with ⟨m, r, g⟩
  simp only at hh hmap hraise
  subst hh hmap hraise
  cases g with
  | error e => simp [Show, grabInput, IsActive, Effect.isGrab, List.countP_cons]
  | ok reply =>
      by_cases hs : reply.Status = GrabStatusSuccess <;>
        simp [Show, grabInput, IsActive, Effect.isGrab, List.countP_cons, hs]

/-- A concrete instance of C8: the grab is refused with an error, with the
status 1 (already grabbed), or succeeds; the overlay is Visible each time. -/
theorem Show_visible_whatever_grab_witness :
    IsActive (Show ⟨5, false⟩ ⟨none, none, .error (.x 10)⟩).bo = true
    ∧ IsActive (Show ⟨5, false⟩ ⟨none, none, .ok ⟨1⟩⟩).bo = true
    ∧ IsActive (Show ⟨5, false⟩ ⟨none, none, .ok ⟨GrabStatusSuccess⟩⟩).bo = true :=
  ⟨(Show_visible_whatever_grab ⟨5, false⟩ ⟨none, none, .error (.x 10)⟩ rfl rfl rfl).2.2.1,
    (Show_visible_whatever_grab ⟨5, false⟩ ⟨none, none, .ok ⟨1⟩⟩ rfl rfl rfl).2.2.1,
    (Show_visible_whatever_grab ⟨5, false⟩ ⟨none, none, .ok ⟨GrabStatusSuccess⟩⟩
      rfl rfl rfl).2.2.1⟩

/-- C9 as stated fails: when the overlay is Visible and the unmap and the
fallback of the first `Destroy` fail, the controller still records Visible, and
a second `Destroy` issues the ungrab, unmap and lower requests again (on the
zeroed handle). -/
theorem Destroy_twice_repeats_hide :
    (Destroy (Destroy ⟨5, true⟩ ⟨hideFails, none⟩).bo ⟨hideFails, none⟩).trace
      = [.UngrabKeyboard, .UngrabPointer, .UnmapWindow 0, .ConfigureWindow 0 .Below] :=
  rfl

/-- C9, amended: `Destroy` first performs `Hide` and then, the window handle
being non-zero, issues the destroy-window request, returns its result and zeroes
the handle.  For every overlay state and every outcome of the requests, a second
`Destroy` issues no destroy-window request and returns no error; it issues no
request at all when the controller records Hidden after the `Hide` of the first
`Destroy`. -/
theorem Destroy_twice (bo : BlockOverlay) (x1 x2 : DestroyReplies) :
    (bo.overlay ≠ 0 →
        (Destroy bo x1).trace = (Hide bo x1.forHide).trace ++ [.DestroyWindow bo.overlay]
        ∧ (Destroy bo x1).err = x1.destroyWindow)
    ∧ (Destroy bo x1).bo.overlay = 0
    ∧ (Destroy (Destroy bo x1).bo x2).trace.countP Effect.isDestroy = 0
    ∧ (Destroy (Destroy bo x1).bo x2).err = none
    ∧ (IsActive (Hide bo x1.forHide).bo = false →
        (Destroy (Destroy bo x1).bo x2).trace = []) := by
  have hov : ∀ (b : BlockOverlay) (y : HideReplies), (Hide b y).bo.overlay = b.overlay := by
    intro b y
    rcases b with ⟨w, a⟩
    rcases y with ⟨u, l⟩
    cases a <;> cases u <;> cases l <;> simp [Hide]
  have hnd : ∀ (b : BlockOverlay) (y : HideReplies),
      (Hide b y).trace.countP Effect.isDestroy = 0 := by
    intro b y
    rcases b with ⟨w, a⟩
    rcases y with ⟨u, l⟩
    cases a <;> cases u <;> cases l <;> simp [Hide, Effect.isDestroy, List.countP_cons]
  have hz : (Destroy bo x1).bo.overlay = 0 := by
    by_cases h0 : bo.overlay = 0
    · simp [Destroy, hov, h0]
    · simp [Destroy, hov, h0]
  have hact : (Destroy bo x1).bo.isActive = (Hide bo x1.forHide).bo.isActive := by
    by_cases h0 : bo.overlay = 0
    · simp [Destroy, hov, h0]
    · simp [Destroy, hov, h0]
  have hsecond : Destroy (Destroy bo x1).bo x2
      = ⟨(Hide (Destroy bo x1).bo x2.forHide).bo,
          (Hide (Destroy bo x1).bo x2.forHide).trace, none⟩ := by
    rw [Destroy]
    simp [hov, hz]
  refine ⟨?_, hz, ?_, ?_, ?_⟩
  · intro h0
    simp [Destroy, hov, h0]
  · rw [hsecond]
    exact hnd _ _
  · rw [hsecond]
  · intro hhid
    rw [hsecond]
    have : (Destroy bo x1).bo.isActive = false := by rw [hact]; exact hhid
    simp [Hide, this]

/-- A concrete instance of the amended C9: a Visible overlay whose unmap
succeeds is hidden and destroyed by the first `Destroy`, and the second
`Destroy` issues nothing. -/
theorem Destroy_twice_witness :
    (Destroy ⟨5, true⟩ ⟨⟨none, none⟩, none⟩).trace
        = (Hide ⟨5, true⟩ ⟨none, none⟩).trace ++ [.DestroyWindow 5]
    ∧ (Destroy (Destroy ⟨5, true⟩ ⟨⟨none, none⟩, none⟩).bo ⟨⟨none, none⟩, none⟩).trace = [] :=
  ⟨((Destroy_twice ⟨5, true⟩ ⟨⟨none, none⟩, none⟩ ⟨⟨none, none⟩, none⟩).1 (by decide)).1,
    (Destroy_twice ⟨5, true⟩ ⟨⟨none, none⟩, none⟩ ⟨⟨none, none⟩, none⟩).2.2.2.2 rfl⟩

/-- C10: the loop of `main` composed with the overlay: from any overlay state
and for every finite sequence of events, if every `Show` and `Hide` call issued
returns no error, then after each event the overlay is Visible exactly when that
event was Off. -/
theorem mainLoop_visible_iff_off (cfg : FlagCfg) (bo : BlockOverlay)
    (events : List (Bool × LoopReplies))
    (hok : ∀ r ∈ mainLoop cfg bo events, ∀ s ∈ r.2, s.callErr = none) :
    (mainLoop cfg bo events).map (fun r => IsActive r.1) = events.map (fun e => !e.1) := by
  induction events generalizing bo with
  | nil => simp [mainLoop]
  | cons ev events ih =>
      rcases ev with ⟨displayOn, x⟩
      simp only [mainLoop, List.mem_cons, forall_eq_or_imp] at hok
      simp only [mainLoop, List.map_cons]
      rw [ih _ hok.2, loopBody_isActive_of_ok cfg bo displayOn x hok.1]

/-- A concrete instance of C10: events Off, Off, On, On, Off from a Hidden
overlay, every request succeeding, leave the overlay Visible, Visible, Hidden,
Hidden, Visible. -/
theorem mainLoop_visible_iff_off_witness :
    (mainLoop defaultFlagCfg ⟨5, false⟩
        [(false, allSucceed), (false, allSucceed), (true, allSucceed), (true, allSucceed),
          (false, allSucceed)]).map (fun r => IsActive r.1)
      = [true, true, false, false, true] :=
  mainLoop_visible_iff_off defaultFlagCfg ⟨5, false⟩
    [(false, allSucceed), (false, allSucceed), (true, allSucceed), (true, allSucceed),
      (false, allSucceed)]
    (by simp [mainLoop, loopBody, IsActive, Show, Hide, allSucceed, LoopStep.callErr,
      defaultFlagCfg])

end TouchBlock
